import Mathlib

/-!
Verification of the Revio QR/NFC tag-inventory, subscription and review
front-end against its specification.

The repository ships the React front-end (src/frontend, src/unnamed) and
two backend documentation files; the FastAPI backend itself
(`server.py`, `subscription_service.py`, `payment_routes.py`) is not part
of the source tree.  Client-side handlers (review generation, bulk-create
parsing) are embedded directly from the JSX source; server-side behaviour
(the TagPair state machine, bulkCreate, verifyPayment, calculate_price,
the legacy single-tag machine) is modelled from the specification, as
noted on each definition.
-/

namespace Revio

/-- Status of a TagPair, as rendered by `getStatusBadge` in
src/unnamed/part_001 (AdminTagPairs): unassigned, assigned, active,
inactive, deleted. -/
inductive PairStatus where
  | unassigned
  | assigned
  | active
  | inactive
  | deleted
deriving DecidableEq

/-- Modelled from the spec: the TagPair record
`{pair_id, qr_id, nfc_id, status, business_id?, business_location?, notes?}`
(spec section 3); field names follow the JSON fields read by
AdminTagPairs (src/unnamed/part_001). -/
structure TagPair where
  pair_id : String
  qr_id : String
  nfc_id : String
  status : PairStatus
  business_id : Option String
  business_location : Option String
  notes : Option String
deriving DecidableEq

/-- Mutating operations on a TagPair other than creation, as exposed by
the endpoints called from AdminTagPairs (assign, activate, deactivate,
reset, delete) and by the assign dialog reused for reassign. -/
inductive PairOp where
  | assign (business_id : String) (business_location : String)
  | reassign (business_id : String) (business_location : String)
  | activate
  | deactivate
  | reset
  | delete
deriving DecidableEq

/-- Modelled from the spec: the legality table of section 4.1 (which the
button guards of AdminTagPairs, src/unnamed/part_001 lines 1020-1104,
mirror): assign only from unassigned; reassign and reset from
assigned, active or inactive; activate from assigned or inactive;
deactivate from active; delete from any state that is not deleted. -/
def legalFrom : PairOp → PairStatus → Bool
  | .assign _ _, s => s = .unassigned
  | .reassign _ _, s => s = .assigned || s = .active || s = .inactive
  | .activate, s => s = .assigned || s = .inactive
  | .deactivate, s => s = .active
  | .reset, s => s = .assigned || s = .active || s = .inactive
  | .delete, s => ¬ s = .deleted

/-- Modelled from the spec: the effect of a legal operation on the
record (section 4.1): assign sets the business fields and
status=assigned; reassign overwrites the business fields and preserves
status; activate/deactivate set the status; reset clears the business
fields and returns the status to unassigned; delete marks the record
deleted (the store layer then removes it). -/
def pairEffect : PairOp → TagPair → TagPair
  | .assign b loc, p =>
      { p with business_id := some b, business_location := some loc,
               status := .assigned }
  | .reassign b loc, p =>
      { p with business_id := some b, business_location := some loc }
  | .activate, p => { p with status := .active }
  | .deactivate, p => { p with status := .inactive }
  | .reset, p =>
      { p with business_id := none, business_location := none,
               status := .unassigned }
  | .delete, p => { p with status := .deleted }

/-- Error taxonomy of spec section 7 restricted to the tag-pair
endpoints: NotFound and InvalidTransition (the latter naming the current
state and the requested operation). -/
inductive PairErr where
  | notFound (pair_id : String)
  | invalidTransition (current : PairStatus) (requested : PairOp)
  | duplicateIdentifier (qr_id : String) (nfc_id : String)
deriving DecidableEq

/-- Modelled from the spec: the append-only TagActivity record of
section 3, with the full pre/post snapshots logged per section 4.1
("previous_state, new_state (full pre/post snapshot)"). -/
structure TagActivity where
  pair_id : String
  action : String
  performed_by : String
  timestamp : Nat
  previous_state : Option TagPair
  new_state : Option TagPair
  notes : Option String
deriving DecidableEq

/-- Modelled from the spec: the persistent store behind the tag-pair
endpoints: the tag_pairs collection, the activity log (newest first, as
returned by the activity-log endpoint), and a counter for generating
fresh pair ids. -/
structure Store where
  pairs : List TagPair
  activities : List TagActivity
  nextId : Nat
deriving DecidableEq

/-- Look up a pair by pair_id, first match, as a document query would. -/
def findPair (st : Store) (pid : String) : Option TagPair :=
  st.pairs.find? (fun q => q.pair_id = pid)

/-- Name of an operation as logged in the activity feed. -/
def opName : PairOp → String
  | .assign _ _ => "assign"
  | .reassign _ _ => "reassign"
  | .activate => "activate"
  | .deactivate => "deactivate"
  | .reset => "reset"
  | .delete => "delete"

/-- Update every record carrying the given pair_id (document update by
key). -/
def updatePair (st : Store) (pid : String) (f : TagPair → TagPair) : List TagPair :=
  st.pairs.map (fun q => if q.pair_id = pid then f q else q)

/-- Remove every record carrying the given pair_id (hard delete). -/
def removePair (st : Store) (pid : String) : List TagPair :=
  st.pairs.filter (fun q => ¬ q.pair_id = pid)

/-- Modelled from the spec: a single admin endpoint invocation on an
existing pair (sections 4.1 and 6).  It looks the pair up, rejects an
illegal transition with InvalidTransition naming the current state and
the requested operation, and otherwise applies the effect and appends
exactly one TagActivity record carrying the pre-state snapshot; delete
removes the record after logging a final activity. -/
def applyPairOp (st : Store) (pid : String) (op : PairOp)
    (adm : String) (ts : Nat) : Except PairErr Store :=
  match findPair st pid with
  | none => .error (.notFound pid)
  | some p =>
      if legalFrom op p.status then
        let post := pairEffect op p
        let act : TagActivity :=
          { pair_id := pid, action := opName op, performed_by := adm,
            timestamp := ts, previous_state := some p,
            new_state := if op = .delete then none else some post,
            notes := none }
        match op with
        | .delete =>
            .ok { st with pairs := removePair st pid,
                          activities := act :: st.activities }
        | _ =>
            .ok { st with pairs := updatePair st pid (fun _ => post),
                          activities := act :: st.activities }
      else
        .error (.invalidTransition p.status op)

/-- Server semantics of an endpoint call: an error response leaves the
store untouched (spec section 7: errors surface as an HTTP error plus a
toast; the handlers in src/unnamed/part_001 show the toast and do not
write). -/
def serverStep (st : Store) (pid : String) (op : PairOp)
    (adm : String) (ts : Nat) : Store :=
  match applyPairOp st pid op adm ts with
  | .ok st' => st'
  | .error _ => st

/-- Fresh pair id generated from the store counter. -/
def genPairId (n : Nat) : String := "PAIR-" ++ toString n

/-- Whether some stored pair already uses this qr_id. -/
def usedQrId (st : Store) (q : String) : Bool :=
  st.pairs.any (fun r => r.qr_id = q)

/-- Whether some stored pair already uses this nfc_id. -/
def usedNfcId (st : Store) (q : String) : Bool :=
  st.pairs.any (fun r => r.nfc_id = q)

/-- Whether some stored pair already uses this pair_id. -/
def usedPairId (st : Store) (q : String) : Bool :=
  st.pairs.any (fun r => r.pair_id = q)

/-- Modelled from the spec: `create(qr_id, nfc_id, notes)` (section 4.1)
fails with DuplicateIdentifier if the qr_id or nfc_id is already used by
any pair (globally unique identifiers, section 3; the generated pair_id
is likewise kept unique); otherwise it inserts a new pair with status
unassigned and appends exactly one TagActivity record with no pre-state
snapshot.  insertRow is the write itself, shared with bulk creation. -/
def insertRow (st : Store) (qr nfc : String) (pairNotes : Option String)
    (adm : String) (ts : Nat) : Store :=
  let p : TagPair :=
    { pair_id := genPairId st.nextId, qr_id := qr, nfc_id := nfc,
      status := .unassigned, business_id := none,
      business_location := none, notes := pairNotes }
  let act : TagActivity :=
    { pair_id := p.pair_id, action := "create", performed_by := adm,
      timestamp := ts, previous_state := none, new_state := some p,
      notes := pairNotes }
  { pairs := p :: st.pairs, activities := act :: st.activities,
    nextId := st.nextId + 1 }

/-- Modelled from the spec: the single-create endpoint, rejecting a
duplicate qr_id or nfc_id with DuplicateIdentifier instead of writing. -/
def createPair (st : Store) (qr nfc : String) (pairNotes : Option String)
    (adm : String) (ts : Nat) : Except PairErr Store :=
  if usedQrId st qr || usedNfcId st nfc || usedPairId st (genPairId st.nextId) then
    .error (.duplicateIdentifier qr nfc)
  else
    .ok (insertRow st qr nfc pairNotes adm ts)

/-- Modelled from the spec: `bulkCreate(list<(qr_id, nfc_id)>)` (section
4.1) processes the rows in order, skipping (not failing on) any row
whose qr_id or nfc_id is already used — by a stored pair or by an
earlier row of the same batch — and returns the store together with
`(created, skipped)`. -/
def bulkCreate (st : Store) (rows : List (String × String))
    (adm : String) (ts : Nat) : Store × Nat × Nat :=
  match rows with
  | [] => (st, 0, 0)
  | (qr, nfc) :: rest =>
      if usedQrId st qr || usedNfcId st nfc || usedPairId st (genPairId st.nextId) then
        let r := bulkCreate st rest adm ts
        (r.1, r.2.1, r.2.2 + 1)
      else
        let r := bulkCreate (insertRow st qr nfc none adm ts) rest adm ts
        (r.1, r.2.1 + 1, r.2.2)

/-- Global uniqueness invariant of spec section 3: no two stored pairs
share a pair_id, a qr_id or an nfc_id. -/
def uniquePairs (st : Store) : Prop :=
  (st.pairs.map TagPair.pair_id).Nodup ∧
  (st.pairs.map TagPair.qr_id).Nodup ∧
  (st.pairs.map TagPair.nfc_id).Nodup

instance (st : Store) : Decidable (uniquePairs st) := by
  unfold uniquePairs
  infer_instance

/-- A mutating admin request: either creation of a new pair, or one of
the six per-pair operations addressed by pair_id. -/
inductive AdminAction where
  | create (qr nfc : String) (pairNotes : Option String)
  | pairOp (pid : String) (op : PairOp)
deriving DecidableEq

/-- Dispatch of a mutating admin request to the tag-pair endpoints. -/
def serverApply (st : Store) (a : AdminAction) (adm : String) (ts : Nat) :
    Except PairErr Store :=
  match a with
  | .create qr nfc pairNotes => createPair st qr nfc pairNotes adm ts
  | .pairOp pid op => applyPairOp st pid op adm ts

/-- The pre-state snapshot an action should log: none for create, the
stored record for a per-pair operation. -/
def actionPrev (st : Store) : AdminAction → Option TagPair
  | .create _ _ _ => none
  | .pairOp pid _ => findPair st pid

/-- Status of a Subscription record (spec section 4.3). -/
inductive SubStatus where
  | active
  | expired
deriving DecidableEq

/-- Modelled from the spec: the Subscription record created or extended
by verify-payment: start_date = now, expiry_date = now + plan_duration,
status = active (spec section 4.3). -/
structure Subscription where
  business_id : String
  plan_type : String
  start_date : Nat
  expiry_date : Nat
  status : SubStatus
deriving DecidableEq

/-- Status of a Payment record: pending on order creation, completed
after successful verification. -/
inductive PayStatus where
  | pending
  | completed
deriving DecidableEq

/-- Modelled from the spec: the Payment record persisted by
create-order and completed by verify-payment. -/
structure Payment where
  order_id : String
  payment_id : Option String
  business_id : String
  status : PayStatus
deriving DecidableEq

/-- The subscription-side persistent state touched by verify-payment. -/
structure SubLedger where
  subscriptions : List Subscription
  payments : List Payment
deriving DecidableEq

/-- Body of POST /subscription/verify-payment as sent by handleSubscribe
in src/frontend/src/pages/SubscribePage.jsx lines 137-144. -/
structure VerifyRequest where
  business_id : String
  razorpay_order_id : String
  razorpay_payment_id : String
  razorpay_signature : String
  plan_type : String
deriving DecidableEq

/-- Fatal verification failure (spec section 7). -/
inductive SubErr where
  | signatureMismatch
deriving DecidableEq

/-- Razorpay's documented signing string: `order_id + "|" + payment_id`. -/
def signingString (orderId paymentId : String) : String :=
  orderId ++ "|" ++ paymentId

/-- Modelled from the spec: `verifyPayment` (spec section 4.3, and the
security-measures notes in src/unnamed/part_005): it re-derives the
HMAC-SHA256 of the signing string server-side (the HMAC primitive is a
parameter of the model) and compares it with the client-sent signature;
on mismatch it fails with SignatureMismatch and performs no write; on
match it prepends an active Subscription running from now to
now + dur and marks the matching Payment completed. -/
def verifyPayment (hmacSha256 : String → String → String) (secret : String)
    (led : SubLedger) (req : VerifyRequest) (now dur : Nat) :
    Except SubErr SubLedger :=
  if req.razorpay_signature
      = hmacSha256 secret
          (signingString req.razorpay_order_id req.razorpay_payment_id) then
    .ok { subscriptions :=
            { business_id := req.business_id, plan_type := req.plan_type,
              start_date := now, expiry_date := now + dur,
              status := .active } :: led.subscriptions,
          payments := led.payments.map (fun pay =>
            if pay.order_id = req.razorpay_order_id then
              { pay with payment_id := some req.razorpay_payment_id,
                         status := .completed }
            else pay) }
  else
    .error .signatureMismatch

/-- Server semantics of the verify-payment endpoint: an error response
leaves the ledger untouched. -/
def verifyStep (hmacSha256 : String → String → String) (secret : String)
    (led : SubLedger) (req : VerifyRequest) (now dur : Nat) : SubLedger :=
  match verifyPayment hmacSha256 secret led req now dur with
  | .ok led' => led'
  | .error _ => led

/-- Subscription plan types (spec section 4.3). -/
inductive PlanType where
  | monthly
  | yearly
deriving DecidableEq

/-- Supported currencies (spec section 4.3). -/
inductive Currency where
  | INR
  | CAD
deriving DecidableEq

/-- The static price table from the Pricing Structure section of
src/unnamed/part_005: monthly ₹99 / yearly ₹799 in INR, monthly $1.99 /
yearly $14.99 in CAD. -/
def planPrice : PlanType → Currency → ℚ
  | .monthly, .INR => 99
  | .yearly, .INR => 799
  | .monthly, .CAD => 199 / 100
  | .yearly, .CAD => 1499 / 100

/-- A coupon's discount rule: percentage off or a fixed amount off. -/
inductive CouponKind where
  | percentage (percent : ℚ)
  | fixed (amount : ℚ)
deriving DecidableEq

/-- Modelled from the spec: the Coupon record with usage tracking and
expiry (spec section 4.3 and the Coupon Security notes of
src/unnamed/part_005). -/
structure Coupon where
  code : String
  kind : CouponKind
  usage_limit : Option Nat
  used_count : Nat
  expires_at : Option Nat
deriving DecidableEq

/-- Coupon failures of the error taxonomy (spec section 7). -/
inductive PriceErr where
  | couponInvalid
  | couponExpired
deriving DecidableEq

/-- Result triple of calculatePrice (spec section 4.3). -/
structure PriceResult where
  original_price : ℚ
  discount : ℚ
  final_price : ℚ
deriving DecidableEq

/-- A coupon is expired when its expiry date lies before now. -/
def couponIsExpired (c : Coupon) (now : Nat) : Bool :=
  match c.expires_at with
  | none => false
  | some e => decide (e < now)

/-- A coupon is used up when its usage count has reached its limit. -/
def couponIsUsedUp (c : Coupon) : Bool :=
  match c.usage_limit with
  | none => false
  | some l => decide (l ≤ c.used_count)

/-- Discount amount a coupon takes off the original price. -/
def couponDiscount (c : Coupon) (original : ℚ) : ℚ :=
  match c.kind with
  | .percentage pct => original * pct / 100
  | .fixed amt => amt

/-- Modelled from the spec: `calculatePrice(plan_type, currency,
coupon?)` (spec section 4.3): looks the price up in the static table,
applies the coupon's percentage or fixed rule after usage-limit and
expiry checks, failing with CouponExpired or CouponInvalid. -/
def calculatePrice (plan : PlanType) (curr : Currency)
    (coupon : Option Coupon) (now : Nat) : Except PriceErr PriceResult :=
  let original := planPrice plan curr
  match coupon with
  | none => .ok ⟨original, 0, original⟩
  | some c =>
      if couponIsExpired c now then .error .couponExpired
      else if couponIsUsedUp c then .error .couponInvalid
      else
        let d := couponDiscount c original
        .ok ⟨original, d, original - d⟩

/-- Status of a legacy single Tag, as rendered by getStatusBadge in
src/frontend/src/pages/admin/AdminTags.jsx. -/
inductive TagStatus where
  | inactive
  | pending
  | active
  | scrapped
deriving DecidableEq

/-- Modelled from the spec: the legacy Tag record of spec section 3. -/
structure LegacyTag where
  tag_id : String
  tag_type : String
  status : TagStatus
  business_id : Option String
  location : Option String
  scrap_reason : Option String
deriving DecidableEq

/-- Operations of the legacy single-tag endpoints called from
AdminTags.jsx: assign, unassign, scrap (with a reason), reset; activate
moves pending to active (spec section 4.2). -/
inductive TagOp where
  | assignTag (business_id : String) (location : String)
  | unassignTag
  | activateTag
  | scrapTag (reason : String)
  | resetTag
deriving DecidableEq

/-- Errors of the legacy machine: an illegal edge, or a scrap request
without the required reason. -/
inductive LegacyErr where
  | invalidTransition (current : TagStatus)
  | reasonRequired
deriving DecidableEq

/-- Modelled from the spec: the legacy single-tag state machine of spec
section 4.2 — inactive → pending → active, with scrapped a terminal
state requiring a non-empty reason (the scrap dialog in AdminTags.jsx
marks the reason field required) and reset returning a non-scrapped tag
to inactive.  Every operation on a scrapped tag is rejected. -/
def tagStep (op : TagOp) (t : LegacyTag) : Except LegacyErr LegacyTag :=
  if t.status = .scrapped then .error (.invalidTransition .scrapped)
  else
    match op with
    | .assignTag b loc =>
        if t.status = .inactive then
          .ok { t with status := .pending, business_id := some b,
                       location := some loc }
        else .error (.invalidTransition t.status)
    | .activateTag =>
        if t.status = .pending then .ok { t with status := .active }
        else .error (.invalidTransition t.status)
    | .unassignTag =>
        if t.status = .pending || t.status = .active then
          .ok { t with status := .inactive, business_id := none,
                       location := none }
        else .error (.invalidTransition t.status)
    | .scrapTag reason =>
        if reason = "" then .error .reasonRequired
        else .ok { t with status := .scrapped,
                          scrap_reason := some reason,
                          business_id := none, location := none }
    | .resetTag =>
        .ok { t with status := .inactive, business_id := none,
                     location := none }

/-- Leading and trailing whitespace stripped from a character list. -/
def trimChars (cs : List Char) : List Char :=
  ((cs.dropWhile Char.isWhitespace).reverse.dropWhile Char.isWhitespace).reverse

/-- The JS `String.prototype.trim()` over the string's characters. -/
def jsTrim (s : String) : String := String.mk (trimChars s.data)

/-- Accumulator-passing scan producing the maximal non-whitespace runs
of a character list. -/
def wsTokensAux : List Char → List Char → List String
  | [], acc => if acc.isEmpty then [] else [String.mk acc.reverse]
  | c :: cs, acc =>
      if c.isWhitespace then
        if acc.isEmpty then wsTokensAux cs []
        else String.mk acc.reverse :: wsTokensAux cs []
      else wsTokensAux cs (c :: acc)

/-- Tokens of the JS `split(/\s+/)` call on an already-trimmed string:
the maximal non-whitespace runs.  (On a trimmed non-empty string the JS
split produces exactly these tokens; both call sites below apply it only
to trimmed strings and guard the empty string separately, as the JSX
does.) -/
def wsTokens (s : String) : List String := wsTokensAux s.data []

/-- Request body of POST /review/generate as sent by
handleGenerateReview in src/unnamed/part_000 lines 54-60. -/
structure ReviewRequest where
  rating : Nat
  keywords : String
  business_name : String
  language : String
  sentiment : String
deriving DecidableEq

/-- Observable outcome of the generate handler: an error toast with no
request, or a POST with the given payload. -/
inductive GenOutcome where
  | toastError (msg : String)
  | request (payload : ReviewRequest)
deriving DecidableEq

/-- Whether the handler stopped at an error toast. -/
def isToastError : GenOutcome → Bool
  | .toastError _ => true
  | .request _ => false

/-- handleGenerateReview from src/unnamed/part_000 lines 41-60: empty
trimmed keywords or fewer than 3 whitespace-separated keywords abort
with an error toast and no request; otherwise the handler POSTs
/review/generate with rating hard-coded to 5 and the raw keywords. -/
def handleGenerateReview (keywords business_name language sentiment : String) :
    GenOutcome :=
  if jsTrim keywords = "" then
    .toastError "Please enter some keywords about your experience"
  else if (wsTokens (jsTrim keywords)).length < 3 then
    .toastError "Please add at least 3 keywords for a better review"
  else
    .request { rating := 5, keywords := keywords,
               business_name := business_name, language := language,
               sentiment := sentiment }

/-- The JS `split(sep)` on a single separator character: consecutive
separators yield empty strings and the empty input yields one empty
string. -/
def splitOnChar (sep : Char) : List Char → List (List Char)
  | [] => [[]]
  | c :: cs =>
      if c = sep then [] :: splitOnChar sep cs
      else
        match splitOnChar sep cs with
        | [] => [[c]]
        | grp :: rest => (c :: grp) :: rest

/-- The lines of the pasted bulk text, per JS `split('\n')`. -/
def jsLines (s : String) : List String :=
  (splitOnChar (Char.ofNat 10) s.data).map String.mk

/-- Outcome of the bulk-create handler: an error toast with no request,
or a POST carrying the parsed rows. -/
inductive BulkOutcome where
  | toastError (msg : String)
  | request (rows : List (String × String))
deriving DecidableEq

/-- Row extraction used to state what the parser keeps: the first two
whitespace-separated tokens of the trimmed line, when it has at least
two. -/
def rowOfLine (line : String) : Option (String × String) :=
  match wsTokens (jsTrim line) with
  | a :: b :: _ => some (a, b)
  | _ => none

/-- handleBulkCreate parsing from src/unnamed/part_001 lines 527-539:
split on newlines, keep lines whose trim is non-empty, split each kept
line on whitespace and push (first, second) when it has at least two
tokens. -/
def parseBulkPairs (text : String) : List (String × String) :=
  let lines := (jsLines text).filter (fun line => jsTrim line ≠ "")
  lines.foldl (fun acc line =>
    match wsTokens (jsTrim line) with
    | a :: b :: _ => acc ++ [(a, b)]
    | _ => acc) []

/-- Declarative description of the rows the handler should send: one row
per line carrying at least two tokens, in order. -/
def bulkRowsSpec (text : String) : List (String × String) :=
  (jsLines text).filterMap rowOfLine

/-- handleBulkCreate from src/unnamed/part_001 lines 522-560: when
parsing yields no valid pair the handler shows an error toast and sends
nothing; otherwise it POSTs the parsed rows. -/
def handleBulkCreate (text : String) : BulkOutcome :=
  if parseBulkPairs text = [] then .toastError "No valid pairs found"
  else .request (parseBulkPairs text)

/-- A found pair carries the pair_id it was looked up by. -/
theorem findPair_pair_id (st : Store) (pid : String) (p : TagPair)
    (hf : findPair st pid = some p) : p.pair_id = pid := by
  unfold findPair at hf
  have := List.find?_some hf
  simpa using this

/-- No operation changes the pair_id field of a record. -/
theorem pairEffect_pair_id (op : PairOp) (p : TagPair) :
    (pairEffect op p).pair_id = p.pair_id := by
  cases op <;> rfl

/-- Looking up pid after replacing every pid-record by a record that
still carries pid finds the replacement. -/
theorem find_after_replace (l : List TagPair) (pid : String) (r : TagPair)
    (hr : r.pair_id = pid)
    (hf : (l.find? (fun q => q.pair_id = pid)).isSome = true) :
    (l.map (fun q => if q.pair_id = pid then r else q)).find?
      (fun q => q.pair_id = pid) = some r := by
  induction l with
  | nil => simp at hf
  | cons q t ih =>
      simp only [List.map_cons]
      by_cases hq : q.pair_id = pid
      · rw [if_pos hq]
        exact List.find?_cons_of_pos _ (by simp [hr])
      · rw [if_neg hq]
        rw [List.find?_cons_of_neg _ (by simp [hq])]
        apply ih
        rw [List.find?_cons_of_neg _ (by simp [hq])] at hf
        exact hf

/-- A legal non-delete operation succeeds and the stored record for the
pair becomes exactly the effect of the operation on the old record. -/
theorem applyPairOp_ok_findPair
    (st : Store) (pid : String) (op : PairOp) (adm : String) (ts : Nat)
    (p : TagPair) (hf : findPair st pid = some p)
    (hl : legalFrom op p.status = true) (hdel : op ≠ .delete) :
    ∃ st1, applyPairOp st pid op adm ts = .ok st1 ∧
      findPair st1 pid = some (pairEffect op p) := by
  have hid : p.pair_id = pid := findPair_pair_id st pid p hf
  have hisSome : (st.pairs.find? (fun q => q.pair_id = pid)).isSome = true := by
    unfold findPair at hf
    simp [hf]
  refine ⟨{ st with
      pairs := updatePair st pid (fun _ => pairEffect op p),
      activities :=
        { pair_id := pid, action := opName op, performed_by := adm,
          timestamp := ts, previous_state := some p,
          new_state := if op = .delete then none else some (pairEffect op p),
          notes := none } :: st.activities }, ?_, ?_⟩
  · unfold applyPairOp
    rw [hf]
    cases op <;> simp_all
  · unfold findPair updatePair
    have hrep := find_after_replace st.pairs pid (pairEffect op p)
      (by rw [pairEffect_pair_id, hid]) hisSome
    simpa using hrep

/-- C6: on a pair whose status is assigned, active or inactive, reassign
succeeds and the stored record afterwards differs from the old one only
in the business fields; in particular the status is unchanged (an active
pair stays active). -/
theorem reassign_overwrites_business_only
    (st : Store) (pid b loc adm : String) (ts : Nat) (p : TagPair)
    (hf : findPair st pid = some p)
    (hs : p.status = .assigned ∨ p.status = .active ∨ p.status = .inactive) :
    (applyPairOp st pid (.reassign b loc) adm ts).map (fun st1 => findPair st1 pid)
      = .ok (some { p with business_id := some b,
                           business_location := some loc }) := by
  have hl : legalFrom (.reassign b loc) p.status = true := by
    rcases hs with h | h | h <;> simp [legalFrom, h]
  obtain ⟨st1, h1, hp1⟩ :=
    applyPairOp_ok_findPair st pid (.reassign b loc) adm ts p hf hl (by simp)
  rw [h1]
  simp [Except.map, hp1, pairEffect]

/-- Witness for C6: reassigning an active pair keeps it active and
rewrites only its business fields. -/
theorem reassign_overwrites_business_only_witness :
    let p : TagPair :=
      { pair_id := "PAIR-0", qr_id := "QR-001", nfc_id := "NFC-001",
        status := .active, business_id := some "bizB",
        business_location := some "Front Counter", notes := none }
    let st : Store := { pairs := [p], activities := [], nextId := 1 }
    (applyPairOp st "PAIR-0" (.reassign "bizC" "Back Office") "admin" 9).map
        (fun st1 => findPair st1 "PAIR-0")
      = .ok (some { p with business_id := some "bizC",
                           business_location := some "Back Office" }) := by
  intro p st
  exact reassign_overwrites_business_only st "PAIR-0" "bizC" "Back Office"
    "admin" 9 p rfl (Or.inr (Or.inl rfl))

/-- C5: on an unassigned pair, assign followed by reset succeeds and
leaves the stored record with business_id and business_location unset
and status unassigned. -/
theorem assign_then_reset_restores
    (st : Store) (pid b loc adm : String) (ts1 ts2 : Nat) (p : TagPair)
    (hf : findPair st pid = some p) (hs : p.status = .unassigned) :
    ((applyPairOp st pid (.assign b loc) adm ts1).bind
        (fun st1 => applyPairOp st1 pid .reset adm ts2)).map
      (fun st2 => findPair st2 pid)
      = .ok (some { p with business_id := none, business_location := none,
                           status := .unassigned }) := by
  obtain ⟨st1, h1, hp1⟩ :=
    applyPairOp_ok_findPair st pid (.assign b loc) adm ts1 p hf
      (by simp [legalFrom, hs]) (by simp)
  obtain ⟨st2, h2, hp2⟩ :=
    applyPairOp_ok_findPair st1 pid .reset adm ts2 _ hp1
      (by simp [legalFrom, pairEffect]) (by simp)
  rw [h1]
  show (applyPairOp st1 pid .reset adm ts2).map (fun st2 => findPair st2 pid) = _
  rw [h2]
  simp [Except.map, hp2, pairEffect]

/-- Witness for C5: assign then reset on a fresh unassigned pair
restores the unassigned no-business record. -/
theorem assign_then_reset_restores_witness :
    let p : TagPair :=
      { pair_id := "PAIR-0", qr_id := "QR-001", nfc_id := "NFC-001",
        status := .unassigned, business_id := none,
        business_location := none, notes := none }
    let st : Store := { pairs := [p], activities := [], nextId := 1 }
    ((applyPairOp st "PAIR-0" (.assign "bizB" "Front Counter") "admin" 1).bind
        (fun st1 => applyPairOp st1 "PAIR-0" .reset "admin" 2)).map
      (fun st2 => findPair st2 "PAIR-0")
      = .ok (some { p with business_id := none, business_location := none,
                           status := .unassigned }) := by
  intro p st
  exact assign_then_reset_restores st "PAIR-0" "bizB" "Front Counter"
    "admin" 1 2 p rfl rfl

/-- C1: an operation that is not legal from the pair's current status
fails with InvalidTransition, naming the current state and the requested
operation, and the store (hence the pair's record) is unchanged; the
error is returned, never swallowed. -/
theorem illegal_op_rejected_unchanged
    (st : Store) (pid : String) (op : PairOp) (adm : String) (ts : Nat)
    (p : TagPair) (hfind : findPair st pid = some p)
    (hillegal : legalFrom op p.status = false) :
    applyPairOp st pid op adm ts = .error (.invalidTransition p.status op) ∧
    serverStep st pid op adm ts = st := by
  have happ : applyPairOp st pid op adm ts
      = .error (.invalidTransition p.status op) := by
    unfold applyPairOp
    rw [hfind]
    simp [hillegal]
  refine ⟨happ, ?_⟩
  unfold serverStep
  rw [happ]

/-- Witness for C1: deactivating an unassigned pair is rejected with
InvalidTransition and leaves the store unchanged. -/
theorem illegal_op_rejected_unchanged_witness :
    let p : TagPair :=
      { pair_id := "PAIR-0", qr_id := "QR-001", nfc_id := "NFC-001",
        status := .unassigned, business_id := none,
        business_location := none, notes := none }
    let st : Store := { pairs := [p], activities := [], nextId := 1 }
    applyPairOp st "PAIR-0" .deactivate "admin" 5
      = .error (.invalidTransition .unassigned .deactivate) ∧
    serverStep st "PAIR-0" .deactivate "admin" 5 = st := by
  intro p st
  exact illegal_op_rejected_unchanged st "PAIR-0" .deactivate "admin" 5 p
    (by decide) (by decide)

/-- C4: every successful mutating tag-pair request (create or any of the
six per-pair operations) appends exactly one TagActivity record, and
that record's previous_state snapshot is exactly the pair's record
immediately before the operation ran (none for create). -/
theorem mutating_op_logs_one_activity
    (st : Store) (a : AdminAction) (adm : String) (ts : Nat) (st' : Store)
    (h : serverApply st a adm ts = .ok st') :
    st'.activities.length = st.activities.length + 1 ∧
    st'.activities.head?.map TagActivity.previous_state
      = some (actionPrev st a) := by
  cases a with
  | create qr nfc pairNotes =>
      simp only [serverApply, createPair] at h
      split at h
      · simp at h
      · rw [Except.ok.injEq] at h
        subst h
        exact ⟨by simp [insertRow], by simp [insertRow, actionPrev]⟩
  | pairOp pid op =>
      simp only [serverApply, applyPairOp] at h
      split at h
      · simp at h
      · rename_i p hf
        split at h
        · split at h <;>
            (rw [Except.ok.injEq] at h; subst h;
             exact ⟨by simp, by simp [actionPrev, hf]⟩)
        · simp at h

/-- Witness for C4: activating an assigned pair appends one activity
whose previous_state is the stored record before the call. -/
theorem mutating_op_logs_one_activity_witness :
    let p : TagPair :=
      { pair_id := "PAIR-0", qr_id := "QR-001", nfc_id := "NFC-001",
        status := .assigned, business_id := some "biz1",
        business_location := some "Front Counter", notes := none }
    let st : Store := { pairs := [p], activities := [], nextId := 1 }
    let st' : Store :=
      { pairs := [{ p with status := .active }],
        activities :=
          [{ pair_id := "PAIR-0", action := "activate",
             performed_by := "admin", timestamp := 7,
             previous_state := some p,
             new_state := some { p with status := .active },
             notes := none }],
        nextId := 1 }
    st'.activities.length = st.activities.length + 1 ∧
    st'.activities.head?.map TagActivity.previous_state
      = some (actionPrev st (.pairOp "PAIR-0" .activate)) := by
  intro p st st'
  exact mutating_op_logs_one_activity st (.pairOp "PAIR-0" .activate)
    "admin" 7 st' rfl

/-- A field value witnessed absent by a false `any` scan is not among
the mapped field values. -/
theorem any_false_not_mem (l : List TagPair) (f : TagPair → String) (q : String)
    (h : l.any (fun r => f r = q) = false) : q ∉ l.map f := by
  rw [List.any_eq_false] at h
  simp only [List.mem_map]
  rintro ⟨r, hr, he⟩
  have hne : ¬ f r = q := by simpa using h r hr
  exact hne he

/-- Inserting a row whose ids are unused preserves global uniqueness. -/
theorem insertRow_unique (st : Store) (qr nfc : String)
    (pairNotes : Option String) (adm : String) (ts : Nat)
    (hu : uniquePairs st)
    (hq : usedQrId st qr = false) (hn : usedNfcId st nfc = false)
    (hp : usedPairId st (genPairId st.nextId) = false) :
    uniquePairs (insertRow st qr nfc pairNotes adm ts) := by
  obtain ⟨h1, h2, h3⟩ := hu
  unfold usedQrId at hq
  unfold usedNfcId at hn
  unfold usedPairId at hp
  refine ⟨?_, ?_, ?_⟩ <;>
    simp only [insertRow, List.map_cons, List.nodup_cons]
  · exact ⟨any_false_not_mem st.pairs TagPair.pair_id _ hp, h1⟩
  · exact ⟨any_false_not_mem st.pairs TagPair.qr_id _ hq, h2⟩
  · exact ⟨any_false_not_mem st.pairs TagPair.nfc_id _ hn, h3⟩

/-- C3: bulkCreate never fails: it returns counts with
created + skipped = N (so created = N - K when K rows are skipped as
duplicates), and if the store satisfied the global uniqueness invariant
beforehand it still does afterwards — no duplicate pair_id, qr_id or
nfc_id exists in storage. -/
theorem bulkCreate_counts_and_unique
    (st : Store) (rows : List (String × String)) (adm : String) (ts : Nat) :
    (bulkCreate st rows adm ts).2.1 + (bulkCreate st rows adm ts).2.2
        = rows.length ∧
    (uniquePairs st → uniquePairs (bulkCreate st rows adm ts).1) := by
  induction rows generalizing st with
  | nil => exact ⟨rfl, fun h => h⟩
  | cons row rest ih =>
      obtain ⟨qr, nfc⟩ := row
      simp only [bulkCreate]
      split
      · obtain ⟨hc, hu⟩ := ih st
        exact ⟨by simp only [List.length_cons]; omega, hu⟩
      · rename_i hdup
        simp only [Bool.or_eq_true, not_or, Bool.not_eq_true] at hdup
        obtain ⟨⟨hq, hn⟩, hp⟩ := hdup
        obtain ⟨hc, hu⟩ := ih (insertRow st qr nfc none adm ts)
        refine ⟨by simp only [List.length_cons]; omega, fun h => ?_⟩
        exact hu (insertRow_unique st qr nfc none adm ts h hq hn hp)

/-- Witness for C3: on an empty store, two rows sharing a qr_id yield
created = 1, skipped = 1, and a duplicate-free store. -/
theorem bulkCreate_counts_and_unique_witness :
    let st : Store := { pairs := [], activities := [], nextId := 0 }
    let rows : List (String × String) := [("QR-1", "NFC-1"), ("QR-1", "NFC-2")]
    (bulkCreate st rows "admin" 3).2.1 + (bulkCreate st rows "admin" 3).2.2
        = rows.length ∧
    uniquePairs (bulkCreate st rows "admin" 3).1 := by
  intro st rows
  exact ⟨(bulkCreate_counts_and_unique st rows "admin" 3).1,
         (bulkCreate_counts_and_unique st rows "admin" 3).2 (by decide)⟩

/-- C2: a verify-payment request whose signature differs from the
server-side HMAC of the signing string fails with SignatureMismatch and
changes nothing: no Subscription is created or extended and no Payment
is marked completed. -/
theorem tampered_signature_rejected
    (hmacSha256 : String → String → String) (secret : String)
    (led : SubLedger) (req : VerifyRequest) (now dur : Nat)
    (h : req.razorpay_signature
        ≠ hmacSha256 secret
            (signingString req.razorpay_order_id req.razorpay_payment_id)) :
    verifyPayment hmacSha256 secret led req now dur
      = .error .signatureMismatch ∧
    verifyStep hmacSha256 secret led req now dur = led := by
  have hv : verifyPayment hmacSha256 secret led req now dur
      = .error .signatureMismatch := by
    unfold verifyPayment
    rw [if_neg h]
  refine ⟨hv, ?_⟩
  unfold verifyStep
  rw [hv]

/-- Witness for C2: a concrete tampered signature is rejected and the
pending payment and empty subscription list are untouched. -/
theorem tampered_signature_rejected_witness :
    let toyHmac : String → String → String := fun key msg => key ++ ":" ++ msg
    let led : SubLedger :=
      { subscriptions := [],
        payments := [{ order_id := "order_1", payment_id := none,
                       business_id := "biz1", status := .pending }] }
    let req : VerifyRequest :=
      { business_id := "biz1", razorpay_order_id := "order_1",
        razorpay_payment_id := "pay_1", razorpay_signature := "tampered",
        plan_type := "yearly" }
    verifyPayment toyHmac "secret" led req 100 365
      = .error .signatureMismatch ∧
    verifyStep toyHmac "secret" led req 100 365 = led := by
  intro toyHmac led req
  exact tampered_signature_rejected toyHmac "secret" led req 100 365
    (by decide)

/-- C7: with no coupon, calculatePrice(yearly, INR) returns the
configured ₹799 with zero discount; with a valid 10 percent coupon it
returns discount = 79.9 = 0.10 * 799 and final_price = 799 - 79.9. -/
theorem yearly_inr_price_and_coupon
    (now : Nat) (c : Coupon)
    (hk : c.kind = .percentage 10)
    (he : couponIsExpired c now = false)
    (hu : couponIsUsedUp c = false) :
    calculatePrice .yearly .INR none now = .ok ⟨799, 0, 799⟩ ∧
    calculatePrice .yearly .INR (some c) now
      = .ok ⟨799, 799 / 10, 799 - 799 / 10⟩ ∧
    (799 : ℚ) / 10 = (10 / 100) * 799 := by
  refine ⟨rfl, ?_, by norm_num⟩
  simp only [calculatePrice, planPrice, he, hu, Bool.false_eq_true,
    if_false, couponDiscount, hk]
  simp only [Except.ok.injEq, PriceResult.mk.injEq]
  norm_num

/-- Witness for C7: a live percentage coupon with spare usages applied
at time 50. -/
theorem yearly_inr_price_and_coupon_witness :
    let c : Coupon := { code := "SAVE10", kind := .percentage 10,
                        usage_limit := some 100, used_count := 3,
                        expires_at := some 999 }
    calculatePrice .yearly .INR none 50 = .ok ⟨799, 0, 799⟩ ∧
    calculatePrice .yearly .INR (some c) 50
      = .ok ⟨799, 799 / 10, 799 - 799 / 10⟩ ∧
    (799 : ℚ) / 10 = (10 / 100) * 799 := by
  intro c
  exact yearly_inr_price_and_coupon 50 c rfl rfl rfl

/-- C8: in the legacy single-tag machine the scrapped state is terminal
— every operation on a scrapped tag, reset included, is rejected — and
a scrap request succeeds only with a non-empty reason string. -/
theorem scrapped_terminal_and_reason_required (t : LegacyTag) :
    (t.status = .scrapped →
      ∀ op : TagOp, tagStep op t = .error (.invalidTransition .scrapped)) ∧
    (∀ reason t', tagStep (.scrapTag reason) t = .ok t' → reason ≠ "") := by
  constructor
  · intro hs op
    unfold tagStep
    rw [if_pos hs]
  · intro reason t' h hr
    subst hr
    unfold tagStep at h
    by_cases hs : t.status = .scrapped
    · rw [if_pos hs] at h
      exact absurd h (by simp)
    · rw [if_neg hs] at h
      simp at h

/-- Witness for C8: resetting a scrapped tag is rejected, and a scrap
that succeeded on an inactive tag had a non-empty reason. -/
theorem scrapped_terminal_and_reason_required_witness :
    let t0 : LegacyTag :=
      { tag_id := "TAG-1", tag_type := "qr", status := .scrapped,
        business_id := none, location := none,
        scrap_reason := some "Damaged" }
    let t1 : LegacyTag :=
      { tag_id := "TAG-2", tag_type := "qr", status := .inactive,
        business_id := none, location := none, scrap_reason := none }
    tagStep .resetTag t0 = .error (.invalidTransition .scrapped) ∧
    "Damaged" ≠ "" := by
  intro t0 t1
  refine ⟨(scrapped_terminal_and_reason_required t0).1 rfl .resetTag, ?_⟩
  exact (scrapped_terminal_and_reason_required t1).2 "Damaged"
    { t1 with status := .scrapped, scrap_reason := some "Damaged",
              business_id := none, location := none } rfl

/-- C9: with fewer than three whitespace-separated keyword tokens
(including the empty input) the generate handler stops at an error toast
and sends no request; a request is sent only with at least three tokens
and always carries rating = 5. -/
theorem generate_review_keyword_gate
    (keywords business_name language sentiment : String) :
    ((wsTokens (jsTrim keywords)).length < 3 →
      isToastError
          (handleGenerateReview keywords business_name language sentiment)
        = true) ∧
    (∀ payload,
      handleGenerateReview keywords business_name language sentiment
          = .request payload →
      3 ≤ (wsTokens (jsTrim keywords)).length ∧ payload.rating = 5) := by
  constructor
  · intro hlt
    unfold handleGenerateReview
    by_cases h0 : jsTrim keywords = ""
    · rw [if_pos h0]
      rfl
    · rw [if_neg h0, if_pos hlt]
      rfl
  · intro payload h
    unfold handleGenerateReview at h
    by_cases h0 : jsTrim keywords = ""
    · rw [if_pos h0] at h
      exact absurd h (by simp)
    · rw [if_neg h0] at h
      by_cases hlt : (wsTokens (jsTrim keywords)).length < 3
      · rw [if_pos hlt] at h
        exact absurd h (by simp)
      · rw [if_neg hlt] at h
        refine ⟨Nat.le_of_not_lt hlt, ?_⟩
        rw [GenOutcome.request.injEq] at h
        subst h
        rfl

/-- Witness for C9: two keywords are refused with a toast; three
keywords pass and the payload carries rating 5. -/
theorem generate_review_keyword_gate_witness :
    isToastError
        (handleGenerateReview "clean fast" "Cafe Uno" "English" "Positive")
      = true ∧
    (3 ≤ (wsTokens (jsTrim "friendly quick tasty")).length ∧
      (ReviewRequest.mk 5 "friendly quick tasty" "Cafe Uno" "English"
        "Positive").rating = 5) := by
  refine ⟨?_, ?_⟩
  · exact (generate_review_keyword_gate "clean fast" "Cafe Uno" "English"
      "Positive").1 (by decide)
  · exact (generate_review_keyword_gate "friendly quick tasty" "Cafe Uno"
      "English" "Positive").2 _ rfl

/-- A line whose trim is empty contributes no row. -/
theorem rowOfLine_blank (line : String) (h : jsTrim line = "") :
    rowOfLine line = none := by
  unfold rowOfLine
  rw [h]
  rfl

/-- The JS push loop over lines is the filterMap of row extraction. -/
theorem foldl_push_filterMap (lines : List String)
    (acc : List (String × String)) :
    lines.foldl (fun acc line =>
      match wsTokens (jsTrim line) with
      | a :: b :: _ => acc ++ [(a, b)]
      | _ => acc) acc
      = acc ++ lines.filterMap rowOfLine := by
  induction lines generalizing acc with
  | nil => simp
  | cons l t ih =>
      simp only [List.foldl_cons, List.filterMap_cons]
      cases hw : wsTokens (jsTrim l) with
      | nil =>
          have hrow : rowOfLine l = none := by simp [rowOfLine, hw]
          simpa [hw, hrow] using ih acc
      | cons a rest =>
          cases rest with
          | nil =>
              have hrow : rowOfLine l = none := by simp [rowOfLine, hw]
              simpa [hw, hrow] using ih acc
          | cons b r2 =>
              have hrow : rowOfLine l = some (a, b) := by simp [rowOfLine, hw]
              simp [hw, hrow, ih]

/-- Dropping blank lines before row extraction changes nothing, since a
blank line contributes no row anyway. -/
theorem blank_filter_irrelevant (lines : List String) :
    ((lines.filter (fun line => jsTrim line ≠ "")).filterMap rowOfLine)
      = lines.filterMap rowOfLine := by
  induction lines with
  | nil => rfl
  | cons l t ih =>
      rw [List.filter_cons]
      by_cases hb : jsTrim l = ""
      · rw [if_neg (by simp [hb])]
        simp only [List.filterMap_cons, rowOfLine_blank l hb]
        exact ih
      · rw [if_pos (by simp [hb])]
        rw [List.filterMap_cons, List.filterMap_cons]
        cases hrow : rowOfLine l <;> simp only [hrow] <;> simpa using ih

/-- C10: the bulk-create handler sends exactly the (first, second)
token pairs of the lines holding at least two whitespace-separated
tokens, in order; blank lines and lines with fewer than two tokens are
dropped client-side, and with no valid line at all nothing is sent. -/
theorem bulk_parse_exact_rows (text : String) :
    parseBulkPairs text = bulkRowsSpec text ∧
    (∀ rows, handleBulkCreate text = .request rows →
      rows = bulkRowsSpec text) ∧
    (bulkRowsSpec text = [] →
      handleBulkCreate text = .toastError "No valid pairs found") := by
  have hmain : parseBulkPairs text = bulkRowsSpec text := by
    unfold parseBulkPairs bulkRowsSpec
    rw [foldl_push_filterMap, List.nil_append, blank_filter_irrelevant]
  refine ⟨hmain, ?_, ?_⟩
  · intro rows h
    unfold handleBulkCreate at h
    split at h
    · exact absurd h (by simp)
    · rw [BulkOutcome.request.injEq] at h
      rw [← h]
      exact hmain
  · intro hnil
    unfold handleBulkCreate
    rw [if_pos (by rw [hmain]; exact hnil)]

/-- Witness for C10: a mixed paste keeps the two valid lines (third
tokens dropped), skipping the one-token line and the blank line. -/
theorem bulk_parse_exact_rows_witness :
    parseBulkPairs "QR-1 NFC-1\nbadline\n\nQR-2 NFC-2 extra"
      = bulkRowsSpec "QR-1 NFC-1\nbadline\n\nQR-2 NFC-2 extra" ∧
    bulkRowsSpec "QR-1 NFC-1\nbadline\n\nQR-2 NFC-2 extra"
      = [("QR-1", "NFC-1"), ("QR-2", "NFC-2")] := by
  refine ⟨(bulk_parse_exact_rows "QR-1 NFC-1\nbadline\n\nQR-2 NFC-2 extra").1, ?_⟩
  decide

end Revio
